import Mathlib

/-!
Shallow embedding of the OCSD protocol codec library.

The source is a small Rust crate.  Machine integers are embedded as
Nat (unsigned u8/u16/u32) and Int (signed i8/i16), with wrapping u32
arithmetic made explicit through wadd32/wsub32.  Byte buffers are
List Nat, one entry per byte.  Fallible operations (slicing, decoding a
buffer of the wrong size, both of which panic in Rust) return Option,
with none standing for the panic.
-/

namespace Ocsd

/-- Modulus of u32 arithmetic. -/
def U32MOD : Nat := 4294967296

/-- Wrapping u32 addition, as performed by the + operator on u32 values. -/
def wadd32 (a b : Nat) : Nat := (a + b) % U32MOD

/-- u32 wrapping_sub a b for u32 operands. -/
def wsub32 (a b : Nat) : Nat := (a % U32MOD + (U32MOD - b % U32MOD)) % U32MOD

/-- Little-endian byte serialization of a u16 value. -/
def le16 (x : Nat) : List Nat := [x % 256, x / 256 % 256]

/-- Little-endian byte serialization of a u32 value. -/
def le32 (x : Nat) : List Nat :=
  [x % 256, x / 256 % 256, x / 65536 % 256, x / 16777216 % 256]

/-- Little-endian u16 read at offset i of a byte buffer. -/
def readU16 (l : List Nat) (i : Nat) : Nat :=
  l.getD i 0 + 256 * l.getD (i + 1) 0

/-- Little-endian u32 read at offset i of a byte buffer. -/
def readU32 (l : List Nat) (i : Nat) : Nat :=
  l.getD i 0 + 256 * l.getD (i + 1) 0 + 65536 * l.getD (i + 2) 0
    + 16777216 * l.getD (i + 3) 0

/-- Value of the little-endian reserialization of a u32, used to state
readback lemmas. -/
def readback32 (x : Nat) : Nat :=
  x % 256 + 256 * (x / 256 % 256) + 65536 * (x / 65536 % 256)
    + 16777216 * (x / 16777216 % 256)

/-- Value of the little-endian reserialization of a u16. -/
def readback16 (x : Nat) : Nat := x % 256 + 256 * (x / 256 % 256)

/-- Rust slice indexing bytes[a..b]: defined when a <= b <= len,
panics (none) otherwise. -/
def slice (l : List Nat) (a b : Nat) : Option (List Nat) :=
  if a ≤ b ∧ b ≤ l.length then some ((l.drop a).take (b - a)) else none

/-- temperature.rs Celsius: a signed integer temperature stored as an i8. -/
structure Celsius where
  value : Int
deriving DecidableEq

namespace Celsius

/-- temperature.rs: const OFFSET: i8 = 0. -/
def OFFSET : Int := 0

/-- The i8 range invariant maintained by the Rust type of the value field. -/
def wf (c : Celsius) : Prop := -128 ≤ c.value ∧ c.value ≤ 127

instance (c : Celsius) : Decidable c.wf := by unfold wf; infer_instance

/-- Celsius::new: value = degrees + OFFSET; Ok iff it fits in an i8
(modelled as Option, none = TempOutOfRange). -/
def new (degrees : Int) : Option Celsius :=
  let value := degrees + OFFSET
  if -128 ≤ value ∧ value ≤ 127 then some ⟨value⟩ else none

/-- Celsius::raw_value: the value cast i8 -> u8 (two/s complement byte). -/
def raw_value (c : Celsius) : Nat := (c.value % 256).toNat

/-- Celsius::degrees. -/
def degrees (c : Celsius) : Int := c.value - OFFSET

/-- Celsius::from_raw: the byte cast u8 -> i8. -/
def from_raw (b : Nat) : Celsius :=
  if b % 256 < 128 then ⟨(b % 256 : Nat)⟩ else ⟨(b % 256 : Nat) - 256⟩

end Celsius

/-- ocsd.rs OcsdSensorType (Unknown = 0, Thermal = 1). -/
inductive OcsdSensorType
  | Unknown
  | Thermal
deriving DecidableEq

/-- The discriminant used by the sensor_type as u8 cast. -/
def OcsdSensorType.toU8 : OcsdSensorType → Nat
  | .Unknown => 0
  | .Thermal => 1

/-- From u8 for OcsdSensorType: 1 maps to Thermal, everything else Unknown. -/
def OcsdSensorType.ofU8 (v : Nat) : OcsdSensorType :=
  if v = 1 then .Thermal else .Unknown

/-- ocsd.rs OcsdSensorLocation (Unknown = 0, InternalToAsic = 1,
OnboardOther = 5). -/
inductive OcsdSensorLocation
  | Unknown
  | InternalToAsic
  | OnboardOther
deriving DecidableEq

/-- The discriminant used by the sensor_location as u32 cast. -/
def OcsdSensorLocation.toU32 : OcsdSensorLocation → Nat
  | .Unknown => 0
  | .InternalToAsic => 1
  | .OnboardOther => 5

/-- From u32 for OcsdSensorLocation. -/
def OcsdSensorLocation.ofU32 (v : Nat) : OcsdSensorLocation :=
  if v = 1 then .InternalToAsic else if v = 5 then .OnboardOther else .Unknown

/-- ocsd.rs OcsdVersion (Unknown = 0, Version2 = 2). -/
inductive OcsdVersion
  | Unknown
  | Version2
deriving DecidableEq

/-- The discriminant used by the ocsd_version as u8 cast. -/
def OcsdVersion.toU8 : OcsdVersion → Nat
  | .Unknown => 0
  | .Version2 => 2

/-- ocsd.rs DeviceVersion (Unknown = 0, Version1 = 1). -/
inductive DeviceVersion
  | Unknown
  | Version1
deriving DecidableEq

/-- The discriminant used by the version as u8 cast. -/
def DeviceVersion.toU8 : DeviceVersion → Nat
  | .Unknown => 0
  | .Version1 => 1

/-- From u8 for DeviceVersion. -/
def DeviceVersion.ofU8 (v : Nat) : DeviceVersion :=
  if v = 1 then .Version1 else .Unknown

/-- data.rs OcsdSensorData: the repr(C) wire record.  The u16 status
bitmask (OcsdSensorStatus) wraps an arbitrary u16, so status and
configuration live inside the configuration_status u32.  Padding bytes
are zero on every construction path and dropped on decode, so they are
not carried as fields; the byte layout below places them explicitly. -/
structure OcsdSensorData where
  sensor_type : Nat
  sensor_location : Nat
  caution_threshold : Nat
  max_continuous_threshold : Nat
  configuration_status : Nat
  reading : Nat
  update_count : Nat
  checksum : Nat
deriving DecidableEq

namespace OcsdSensorData

/-- The all-zero record (derive Default of the Rust struct). -/
def zero : OcsdSensorData := ⟨0, 0, 0, 0, 0, 0, 0, 0⟩

/-- The wrapping u32 sum computed at the start of
OcsdSensorData::checksum: sensor_type + sensor_location
+ max_continuous_threshold + caution_threshold + configuration_status
+ reading + update_count. -/
def scalarSum (s : OcsdSensorData) : Nat :=
  wadd32 (wadd32 (wadd32 (wadd32 (wadd32 (wadd32 s.sensor_type
    s.sensor_location) s.max_continuous_threshold) s.caution_threshold)
    s.configuration_status) s.reading) s.update_count

/-- OcsdSensorData::checksum(bus) (the method; Lean cannot reuse the
field name): zero when the scalar sum is zero, otherwise
wrapping_sub(0, sum + bus). -/
def checksumCalc (s : OcsdSensorData) (bus : Nat) : Nat :=
  let sum := s.scalarSum
  if sum = 0 then 0 else wsub32 0 (wadd32 sum bus)

/-- OcsdSensorData::new: fields as given,
configuration_status = configuration + (status << 16), padding zero,
checksum computed from the constructed record and the bus.
Arguments carry the bounds of their Rust types (u8/u16/u32). -/
def new (sensor_type sensor_location caution_threshold
    max_continuous_threshold reading configuration status update_count
    bus : Nat) : OcsdSensorData :=
  let created : OcsdSensorData :=
    { sensor_type := sensor_type
      sensor_location := sensor_location
      caution_threshold := caution_threshold
      max_continuous_threshold := max_continuous_threshold
      configuration_status := configuration + status * 65536
      reading := reading
      update_count := update_count
      checksum := 0 }
  { created with checksum := created.checksumCalc bus }

/-- Status accessor: configuration_status >> 16. -/
def status (s : OcsdSensorData) : Nat := s.configuration_status / 65536

/-- Configuration accessor: configuration_status et 0xFFFF. -/
def configuration (s : OcsdSensorData) : Nat := s.configuration_status % 65536

/-- bytemuck::bytes_of the repr(C) struct: each field little-endian at
its offset, padding bytes zero.  Offsets: sensor_type 0,
sensor_location 4, caution_threshold 8, max_continuous_threshold 12,
configuration_status 16, reading 20, update_count 24, checksum 28. -/
def toBytes (s : OcsdSensorData) : List Nat :=
  [s.sensor_type, 0, 0, 0] ++ le32 s.sensor_location
    ++ [s.caution_threshold, 0, 0, 0] ++ [s.max_continuous_threshold, 0, 0, 0]
    ++ le32 s.configuration_status ++ [s.reading, 0, 0, 0]
    ++ le16 s.update_count ++ [0, 0] ++ le32 s.checksum

/-- bytemuck::from_bytes for OcsdSensorData: requires exactly 32 bytes
(panic, modelled as none, otherwise) and reads each field little-endian
at its offset. -/
def fromBytes (l : List Nat) : Option OcsdSensorData :=
  if l.length = 32 then
    some { sensor_type := l.getD 0 0
           sensor_location := readU32 l 4
           caution_threshold := l.getD 8 0
           max_continuous_threshold := l.getD 12 0
           configuration_status := readU32 l 16
           reading := l.getD 20 0
           update_count := readU16 l 24
           checksum := readU32 l 28 }
  else none

end OcsdSensorData

/-- ocsd.rs OcsdSensor: the plain sensor record.  status embeds the
OcsdSensorStatus u16 bitmask as its underlying u16 value (the wrapper
converts to and from any u16 unchanged). -/
structure OcsdSensor where
  sensor_type : OcsdSensorType
  sensor_location : OcsdSensorLocation
  configuration : Nat
  status : Nat
  max_continuous_threshold : Celsius
  caution_threshold : Celsius
  reading : Celsius
  update_count : Nat
  bus : Option Nat
deriving DecidableEq

namespace OcsdSensor

/-- The Rust type invariants of the plain sensor fields: u16 fields in
range and i8-backed temperatures in range. -/
def wf (s : OcsdSensor) : Prop :=
  s.configuration < 65536 ∧ s.status < 65536 ∧ s.update_count < 65536
    ∧ s.max_continuous_threshold.wf ∧ s.caution_threshold.wf ∧ s.reading.wf

instance (s : OcsdSensor) : Decidable s.wf := by unfold wf; infer_instance

/-- OcsdSensor::to_bytes.  With bus set it serializes
OcsdSensorData::new applied to the field values; with bus absent the
match arm returns Vec::default(), the empty byte vector. -/
def toBytes (s : OcsdSensor) : List Nat :=
  match s.bus with
  | some bus =>
      (OcsdSensorData.new s.sensor_type.toU8 s.sensor_location.toU32
        s.caution_threshold.raw_value s.max_continuous_threshold.raw_value
        s.reading.raw_value s.configuration s.status s.update_count
        bus).toBytes
  | none => []

/-- OcsdSensor::from_bytes: decode the wire record, convert each field,
and leave bus absent. -/
def fromBytes (l : List Nat) : Option OcsdSensor :=
  (OcsdSensorData.fromBytes l).map fun data =>
    { sensor_type := OcsdSensorType.ofU8 data.sensor_type
      sensor_location := OcsdSensorLocation.ofU32 data.sensor_location
      configuration := data.configuration
      status := data.status
      max_continuous_threshold := Celsius.from_raw data.max_continuous_threshold
      caution_threshold := Celsius.from_raw data.caution_threshold
      reading := Celsius.from_raw data.reading
      update_count := data.update_count
      bus := none }

/-- OcsdSensor::memory_size: size_of the repr(C) wire struct, which is
the length of its byte representation. -/
def memorySize : Nat := OcsdSensorData.zero.toBytes.length

end OcsdSensor

/-- data.rs OcsdHeaderData: the repr(C) system header wire record.
Padding and reserved fields are zero on every construction path and
are placed explicitly in the byte layout. -/
structure OcsdHeaderData where
  ocsd_version : Nat
  buffer_size : Nat
  max_option_cards : Nat
  one_option_card_size : Nat
  buffer_start_address : Nat
  update_interval : Nat
  buffers_in_use : Nat
  checksum : Nat
deriving DecidableEq

namespace OcsdHeaderData

/-- The all-zero record (derive Default). -/
def zero : OcsdHeaderData := ⟨0, 0, 0, 0, 0, 0, 0, 0⟩

/-- OcsdHeaderData::checksum (the method): the chain of u32
wrapping_sub starting from 0 over the seven scalar fields. -/
def checksumCalc (h : OcsdHeaderData) : Nat :=
  wsub32 (wsub32 (wsub32 (wsub32 (wsub32 (wsub32 (wsub32 0
    h.ocsd_version) h.buffer_size) h.max_option_cards)
    h.one_option_card_size) h.buffer_start_address) h.update_interval)
    h.buffers_in_use

/-- OcsdHeaderData::new: fields as given, padding zero, checksum
computed from the constructed record. -/
def new (ocsd_version buffer_size max_option_cards one_option_card_size
    buffer_start_address update_interval buffers_in_use : Nat) :
    OcsdHeaderData :=
  let constructed : OcsdHeaderData :=
    { ocsd_version := ocsd_version
      buffer_size := buffer_size
      max_option_cards := max_option_cards
      one_option_card_size := one_option_card_size
      buffer_start_address := buffer_start_address
      update_interval := update_interval
      buffers_in_use := buffers_in_use
      checksum := 0 }
  { constructed with checksum := constructed.checksumCalc }

/-- bytemuck::bytes_of the repr(C) struct.  Offsets: ocsd_version 0,
buffer_size 4, max_option_cards 8, one_option_card_size 12,
buffer_start_address 16, reserved 20..31, update_interval 32,
reserved 36..55, buffers_in_use 56, checksum 60; 64 bytes total. -/
def toBytes (h : OcsdHeaderData) : List Nat :=
  [h.ocsd_version, 0, 0, 0] ++ le16 h.buffer_size ++ [0, 0]
    ++ [h.max_option_cards, 0, 0, 0] ++ [h.one_option_card_size, 0, 0, 0]
    ++ le32 h.buffer_start_address ++ List.replicate 12 0
    ++ [h.update_interval, 0, 0, 0] ++ List.replicate 20 0
    ++ [h.buffers_in_use, 0, 0, 0] ++ le32 h.checksum

end OcsdHeaderData

/-- ocsd.rs OcsdHeader: the plain system header record. -/
structure OcsdHeader where
  ocsd_version : OcsdVersion
  buffer_size : Nat
  max_option_cards : Nat
  one_option_card_size : Nat
  buffer_start_address : Nat
  update_interval : Nat
  buffers_in_use : Nat
deriving DecidableEq

namespace OcsdHeader

/-- OcsdHeader::to_bytes: build the wire record through
OcsdHeaderData::new (which computes the checksum) and serialize it. -/
def toBytes (h : OcsdHeader) : List Nat :=
  (OcsdHeaderData.new h.ocsd_version.toU8 h.buffer_size
    h.max_option_cards h.one_option_card_size h.buffer_start_address
    h.update_interval h.buffers_in_use).toBytes

/-- OcsdHeader::memory_size: size_of the repr(C) wire struct. -/
def memorySize : Nat := OcsdHeaderData.zero.toBytes.length

end OcsdHeader

/-- data.rs OcsdDeviceHeaderData: the repr(C) device header wire
record.  unknown_1, unknown_2 and the nine entries of unknown_3 are
the reserved u32 fields; they are zero on construction and take part
in the checksum. -/
structure OcsdDeviceHeaderData where
  version : Nat
  pci_bus : Nat
  pci_device : Nat
  unknown_1 : Nat
  unknown_2 : Nat
  flags_caps : Nat
  unknown_3 : List Nat
  checksum : Nat
deriving DecidableEq

namespace OcsdDeviceHeaderData

/-- The all-zero record (derive Default). -/
def zero : OcsdDeviceHeaderData := ⟨0, 0, 0, 0, 0, 0, List.replicate 9 0, 0⟩

/-- OcsdDeviceHeaderData::checksum (the method): the chain of u32
wrapping_sub starting from 0 over version, pci_bus, pci_device,
unknown_1, unknown_2, flags_caps and the nine unknown_3 entries. -/
def checksumCalc (h : OcsdDeviceHeaderData) : Nat :=
  (h.unknown_3.foldl wsub32
    (wsub32 (wsub32 (wsub32 (wsub32 (wsub32 (wsub32 0 h.version)
      h.pci_bus) h.pci_device) h.unknown_1) h.unknown_2) h.flags_caps))

/-- OcsdDeviceHeaderData::new: fields as given, reserved fields zero,
checksum computed from the constructed record. -/
def new (version pci_bus pci_device flags_caps : Nat) :
    OcsdDeviceHeaderData :=
  let created : OcsdDeviceHeaderData :=
    { version := version
      pci_bus := pci_bus
      pci_device := pci_device
      unknown_1 := 0
      unknown_2 := 0
      flags_caps := flags_caps
      unknown_3 := List.replicate 9 0
      checksum := 0 }
  { created with checksum := created.checksumCalc }

/-- bytemuck::bytes_of the repr(C) struct.  Offsets: version 0,
pci_bus 4, pci_device 8, unknown_1 12, unknown_2 16, flags_caps 20,
unknown_3 24..59, checksum 60; 64 bytes total. -/
def toBytes (h : OcsdDeviceHeaderData) : List Nat :=
  [h.version, 0, 0, 0] ++ [h.pci_bus, 0, 0, 0] ++ [h.pci_device, 0, 0, 0]
    ++ le32 h.unknown_1 ++ le32 h.unknown_2 ++ le32 h.flags_caps
    ++ (h.unknown_3.map le32).flatten ++ le32 h.checksum

/-- bytemuck::from_bytes for OcsdDeviceHeaderData: requires exactly
64 bytes and reads each field little-endian at its offset. -/
def fromBytes (l : List Nat) : Option OcsdDeviceHeaderData :=
  if l.length = 64 then
    some { version := l.getD 0 0
           pci_bus := l.getD 4 0
           pci_device := l.getD 8 0
           unknown_1 := readU32 l 12
           unknown_2 := readU32 l 16
           flags_caps := readU32 l 20
           unknown_3 := [readU32 l 24, readU32 l 28, readU32 l 32,
             readU32 l 36, readU32 l 40, readU32 l 44, readU32 l 48,
             readU32 l 52, readU32 l 56]
           checksum := readU32 l 60 }
  else none

end OcsdDeviceHeaderData

/-- ocsd.rs OcsdDeviceHeader: the plain device header record. -/
structure OcsdDeviceHeader where
  version : DeviceVersion
  pci_bus : Nat
  pci_device : Nat
  flags_caps : Nat
deriving DecidableEq

namespace OcsdDeviceHeader

/-- OcsdDeviceHeader::to_bytes. -/
def toBytes (h : OcsdDeviceHeader) : List Nat :=
  (OcsdDeviceHeaderData.new h.version.toU8 h.pci_bus h.pci_device
    h.flags_caps).toBytes

/-- OcsdDeviceHeader::from_bytes: decode the wire record and keep the
public fields. -/
def fromBytes (l : List Nat) : Option OcsdDeviceHeader :=
  (OcsdDeviceHeaderData.fromBytes l).map fun data =>
    { version := DeviceVersion.ofU8 data.version
      pci_bus := data.pci_bus
      pci_device := data.pci_device
      flags_caps := data.flags_caps }

/-- OcsdDeviceHeader::memory_size: size_of the repr(C) wire struct. -/
def memorySize : Nat := OcsdDeviceHeaderData.zero.toBytes.length

end OcsdDeviceHeader

/-- ocsd.rs OcsdDevice: one device header plus the fixed array of three
sensor slots. -/
structure OcsdDevice where
  header : OcsdDeviceHeader
  sensor0 : OcsdSensor
  sensor1 : OcsdSensor
  sensor2 : OcsdSensor
deriving DecidableEq

namespace OcsdDevice

/-- OcsdDevice::to_bytes: the header bytes followed by the
concatenation of the three sensor encodings in slot order. -/
def toBytes (d : OcsdDevice) : List Nat :=
  d.header.toBytes ++ (d.sensor0.toBytes ++ d.sensor1.toBytes
    ++ d.sensor2.toBytes)

/-- OcsdDevice::memory_size. -/
def memorySize : Nat :=
  OcsdDeviceHeader.memorySize + 3 * OcsdSensor.memorySize

/-- OcsdDevice::from_bytes: slice the header prefix, then slice three
sensor chunks out of the rest, exactly as the Rust loop over the three
slots does; each Rust slice that would be out of bounds panics,
modelled by none propagating. -/
def fromBytes (l : List Nat) : Option OcsdDevice :=
  match slice l 0 OcsdDeviceHeader.memorySize with
  | none => none
  | some headerBytes =>
  match OcsdDeviceHeader.fromBytes headerBytes with
  | none => none
  | some header =>
  match slice l OcsdDeviceHeader.memorySize l.length with
  | none => none
  | some sensorBytes =>
  match slice sensorBytes (0 * OcsdSensor.memorySize)
      (1 * OcsdSensor.memorySize) with
  | none => none
  | some bytes0 =>
  match OcsdSensor.fromBytes bytes0 with
  | none => none
  | some s0 =>
  match slice sensorBytes (1 * OcsdSensor.memorySize)
      (2 * OcsdSensor.memorySize) with
  | none => none
  | some bytes1 =>
  match OcsdSensor.fromBytes bytes1 with
  | none => none
  | some s1 =>
  match slice sensorBytes (2 * OcsdSensor.memorySize)
      (3 * OcsdSensor.memorySize) with
  | none => none
  | some bytes2 =>
  match OcsdSensor.fromBytes bytes2 with
  | none => none
  | some s2 =>
      some { header := header, sensor0 := s0, sensor1 := s1, sensor2 := s2 }

end OcsdDevice

/-- client/error.rs MappingError, with the data mentioned by the two
format strings in open_device_mapping instead of the rendered text. -/
inductive MappingError
  | indexTooLarge (device_index max_option_cards : Nat)
  | openFailed (start_address : Nat)
deriving DecidableEq

/-- client/mod.rs OcsdHeader::open_device_mapping, with the external
memory mapper (unsafe Mapping::new) abstracted as an oracle from
(address, length) to an optional mapping.  An index at or above
max_option_cards is rejected before the oracle is consulted; otherwise
the mapper is asked for a view of one_option_card_size bytes at
buffer_start_address + one_option_card_size * device_index. -/
def OcsdHeader.openDeviceMapping {V : Type} (opn : Nat → Nat → Option V)
    (h : OcsdHeader) (device_index : Nat) : Except MappingError V :=
  if h.max_option_cards ≤ device_index then
    .error (.indexTooLarge device_index h.max_option_cards)
  else
    let start_address := h.buffer_start_address
      + h.one_option_card_size * device_index
    match opn start_address h.one_option_card_size with
    | some m => .ok m
    | none => .error (.openFailed start_address)

/-- client/mod.rs OcsdDeviceContext::read: allocate a buffer of
device_size bytes (the device_size field holds the one_option_card_size
of the header used to open the mapping), fill it from the mapped
memory, and decode it as a device.  The mapped memory content is
abstracted as a function from byte index to byte value; the panic of an
out-of-bounds decode is none. -/
def OcsdDeviceContext.read (device_size : Nat) (mem : Nat → Nat) :
    Option OcsdDevice :=
  OcsdDevice.fromBytes ((List.range device_size).map mem)

/-- The 32-byte known vector from the checksum_1 test in data.rs. -/
def c5bytes : List Nat :=
  [0x01, 0x00, 0x00, 0x00, 0x01, 0x00, 0x00, 0x00, 0x67, 0x00, 0x00, 0x00,
   0x5d, 0x00, 0x00, 0x00, 0x00, 0x00, 0x0b, 0x00, 0x23, 0x00, 0x00, 0x00,
   0x83, 0xdb, 0x00, 0x00, 0x91, 0x23, 0xf4, 0xff]

/-- A null sensor: every field zero and bus absent. -/
def nullSensor : OcsdSensor :=
  { sensor_type := .Unknown
    sensor_location := .Unknown
    configuration := 0
    status := 0
    max_continuous_threshold := ⟨0⟩
    caution_threshold := ⟨0⟩
    reading := ⟨0⟩
    update_count := 0
    bus := none }

/-- A realistic present sensor on bus 3, used as concrete input. -/
def thermalSensor : OcsdSensor :=
  { sensor_type := .Thermal
    sensor_location := .InternalToAsic
    configuration := 0
    status := 0xb
    max_continuous_threshold := ⟨0x67⟩
    caution_threshold := ⟨0x5d⟩
    reading := ⟨0x23⟩
    update_count := 0xdb83
    bus := some 3 }

/-- A device whose middle sensor slot is absent (bus = none) while the
outer two sensors are present. -/
def middleAbsentDevice : OcsdDevice :=
  { header :=
      { version := .Version1
        pci_bus := 3
        pci_device := 0
        flags_caps := 0 }
    sensor0 := thermalSensor
    sensor1 := nullSensor
    sensor2 := { thermalSensor with sensor_location := .OnboardOther } }

/-- A concrete mapper oracle that always succeeds and records the
requested address and length. -/
def mapOracle : Nat → Nat → Option (Nat × Nat) := fun a l => some (a, l)

/-- A concrete decoded header describing two device slots of 160 bytes
each. -/
def c9hdr : OcsdHeader :=
  { ocsd_version := .Version2
    buffer_size := 768
    max_option_cards := 2
    one_option_card_size := 160
    buffer_start_address := 4026531840
    update_interval := 1
    buffers_in_use := 2 }

/-!  Helper lemmas shared by the claim theorems. -/

/-- Reading back the four little-endian bytes of a u32 value yields the
value. -/
theorem readback32_eq (x : Nat) (hx : x < 4294967296) : readback32 x = x := by
  unfold readback32; omega

/-- Reading back the two little-endian bytes of a u16 value yields the
value. -/
theorem readback16_eq (x : Nat) (hx : x < 65536) : readback16 x = x := by
  unfold readback16; omega

/-- The i8 to u8 to i8 cast round trip on an in-range temperature. -/
theorem Celsius.from_raw_raw_value (c : Celsius) (h : c.wf) :
    Celsius.from_raw c.raw_value = c := by
  obtain ⟨v⟩ := c
  simp only [Celsius.wf] at h
  obtain ⟨h1, h2⟩ := h
  simp only [Celsius.from_raw, Celsius.raw_value]
  have hlt : (v % 256).toNat < 256 := by omega
  rw [Nat.mod_eq_of_lt hlt]
  split_ifs with h3 <;> simp only [Celsius.mk.injEq] <;> omega

/-- The sensor location discriminant fits in a u32. -/
theorem OcsdSensorLocation.toU32_lt (loc : OcsdSensorLocation) :
    loc.toU32 < 4294967296 := by
  cases loc <;> decide

/-- A slice is defined exactly when its bounds are ordered and inside
the buffer. -/
theorem slice_eq_none_iff (l : List Nat) (a b : Nat) :
    slice l a b = none ↔ ¬(a ≤ b ∧ b ≤ l.length) := by
  unfold slice
  split_ifs with h <;> simp [h]

/-- Length of a defined slice. -/
theorem slice_length (l : List Nat) (a b : Nat) (s : List Nat)
    (h : slice l a b = some s) :
    s.length = b - a ∧ a ≤ b ∧ b ≤ l.length := by
  unfold slice at h
  split_ifs at h with hc
  cases h
  refine ⟨?_, hc.1, hc.2⟩
  simp only [List.length_take, List.length_drop]
  omega

/-- A slice with bounds inside the buffer is defined. -/
theorem slice_isSome (l : List Nat) (a b : Nat) (h1 : a ≤ b)
    (h2 : b ≤ l.length) : (slice l a b).isSome := by
  unfold slice
  rw [if_pos ⟨h1, h2⟩]
  rfl

/-- One step of a chained wrapping subtraction: the accumulator is
already reduced modulo 2^32, so the reduction can be pulled out. -/
theorem wsub32_chain_step (X b : Nat) (hb : b < 4294967296) :
    wsub32 (X % 4294967296) b = (X + 4294967296 - b) % 4294967296 := by
  unfold wsub32 U32MOD
  omega

/-- The first step of a chained wrapping subtraction from zero. -/
theorem wsub32_zero (b : Nat) (hb : b < 4294967296) :
    wsub32 0 b = (4294967296 - b) % 4294967296 := by
  unfold wsub32 U32MOD
  omega

/-- The device header decoder succeeds exactly on 64-byte input. -/
theorem deviceHeader_fromBytes_isSome_iff (l : List Nat) :
    (OcsdDeviceHeader.fromBytes l).isSome ↔ l.length = 64 := by
  unfold OcsdDeviceHeader.fromBytes OcsdDeviceHeaderData.fromBytes
  split_ifs with h <;> simp [h]

/-- The sensor decoder succeeds exactly on 32-byte input. -/
theorem sensor_fromBytes_isSome_iff (l : List Nat) :
    (OcsdSensor.fromBytes l).isSome ↔ l.length = 32 := by
  unfold OcsdSensor.fromBytes OcsdSensorData.fromBytes
  split_ifs with h <;> simp [h]

/-- The device decoder succeeds exactly when the buffer holds at least
one full device record. -/
theorem device_fromBytes_isSome_iff (l : List Nat) :
    (OcsdDevice.fromBytes l).isSome ↔ OcsdDevice.memorySize ≤ l.length := by
  have hmem : OcsdDevice.memorySize = 160 := by decide
  rw [hmem]
  unfold OcsdDevice.fromBytes
  constructor
  · intro h
    split at h
    · simp at h
    next headerBytes hs1 =>
    split at h
    · simp at h
    next header hs2 =>
    split at h
    · simp at h
    next sensorBytes hs3 =>
    split at h
    · simp at h
    next bytes0 hs4 =>
    split at h
    · simp at h
    next s0 hs5 =>
    split at h
    · simp at h
    next bytes1 hs6 =>
    split at h
    · simp at h
    next s1 hs7 =>
    split at h
    · simp at h
    next bytes2 hs8 =>
    split at h
    · simp at h
    next s2 hs9 =>
    have l3 := slice_length l _ _ _ hs3
    have l8 := slice_length sensorBytes _ _ _ hs8
    have hms : OcsdSensor.memorySize = 32 := by decide
    have hmh : OcsdDeviceHeader.memorySize = 64 := by decide
    omega
  · intro h160
    have hs1 : (slice l 0 OcsdDeviceHeader.memorySize).isSome :=
      slice_isSome _ _ _ (by omega) (by
        show OcsdDeviceHeader.memorySize ≤ l.length
        have : OcsdDeviceHeader.memorySize = 64 := by decide
        omega)
    obtain ⟨headerBytes, hb1⟩ := Option.isSome_iff_exists.mp hs1
    have lb1 := slice_length l _ _ _ hb1
    have hh : (OcsdDeviceHeader.fromBytes headerBytes).isSome := by
      rw [deviceHeader_fromBytes_isSome_iff]
      have : OcsdDeviceHeader.memorySize = 64 := by decide
      omega
    obtain ⟨header, hb2⟩ := Option.isSome_iff_exists.mp hh
    have hs3 : (slice l OcsdDeviceHeader.memorySize l.length).isSome :=
      slice_isSome _ _ _ (by
        have : OcsdDeviceHeader.memorySize = 64 := by decide
        omega) (by omega)
    obtain ⟨sensorBytes, hb3⟩ := Option.isSome_iff_exists.mp hs3
    have lb3 := slice_length l _ _ _ hb3
    have hms : OcsdSensor.memorySize = 32 := by decide
    have hmh : OcsdDeviceHeader.memorySize = 64 := by decide
    have hs4 : (slice sensorBytes (0 * OcsdSensor.memorySize)
        (1 * OcsdSensor.memorySize)).isSome :=
      slice_isSome _ _ _ (by omega) (by omega)
    obtain ⟨bytes0, hb4⟩ := Option.isSome_iff_exists.mp hs4
    have lb4 := slice_length sensorBytes _ _ _ hb4
    have hsen0 : (OcsdSensor.fromBytes bytes0).isSome := by
      rw [sensor_fromBytes_isSome_iff]; omega
    obtain ⟨s0, hb5⟩ := Option.isSome_iff_exists.mp hsen0
    have hs6 : (slice sensorBytes (1 * OcsdSensor.memorySize)
        (2 * OcsdSensor.memorySize)).isSome :=
      slice_isSome _ _ _ (by omega) (by omega)
    obtain ⟨bytes1, hb6⟩ := Option.isSome_iff_exists.mp hs6
    have lb6 := slice_length sensorBytes _ _ _ hb6
    have hsen1 : (OcsdSensor.fromBytes bytes1).isSome := by
      rw [sensor_fromBytes_isSome_iff]; omega
    obtain ⟨s1, hb7⟩ := Option.isSome_iff_exists.mp hsen1
    have hs8 : (slice sensorBytes (2 * OcsdSensor.memorySize)
        (3 * OcsdSensor.memorySize)).isSome :=
      slice_isSome _ _ _ (by omega) (by omega)
    obtain ⟨bytes2, hb8⟩ := Option.isSome_iff_exists.mp hs8
    have lb8 := slice_length sensorBytes _ _ _ hb8
    have hsen2 : (OcsdSensor.fromBytes bytes2).isSome := by
      rw [sensor_fromBytes_isSome_iff]; omega
    obtain ⟨s2, hb9⟩ := Option.isSome_iff_exists.mp hsen2
    simp only [hb1, hb2, hb3, hb4, hb5, hb6, hb7, hb8, hb9,
      Option.isSome_some]

/-!  Claim theorems. -/

/-- C1: encoding a sensor whose bus field is absent is claimed to yield
the 32-byte all-zero record; the code instead returns the EMPTY byte
vector (the match arm for bus = None evaluates Vec::default()), so the
encoding of the concrete null sensor is [] and in particular is not the
32 zero bytes the claim (and the doc comment of to_bytes together with
the memory_size contract) requires. -/
theorem c1_none_bus_encodes_empty :
    nullSensor.bus = none ∧ nullSensor.toBytes = []
      ∧ nullSensor.toBytes ≠ List.replicate 32 0 := by
  decide

set_option maxRecDepth 8192 in
/-- C2: for the concrete device whose middle sensor slot has bus absent
and whose outer sensors are present, encoding is claimed to round-trip
and to carry an all-zero middle 32-byte chunk.  The code emits only 128
bytes (the absent slot contributes nothing) and decoding that encoding
panics on an out-of-range slice (modelled by none), so the round trip
fails. -/
theorem c2_absent_middle_sensor_roundtrip_fails :
    middleAbsentDevice.sensor1.bus = none
      ∧ middleAbsentDevice.toBytes.length = 128
      ∧ OcsdDevice.fromBytes middleAbsentDevice.toBytes = none := by
  decide

/-- C3 counterexample: the claim states the DeviceHeader wire size is
52 bytes; the repr(C) layout of OcsdDeviceHeaderData occupies 64
bytes. -/
theorem c3_device_header_size_not_52 : ¬ OcsdDeviceHeader.memorySize = 52 := by
  decide

/-- C3 (amended): the wire sizes are constants: SystemHeader 64 bytes,
DeviceHeader 64 bytes, Sensor 32 bytes, and the Device wire size equals
DeviceHeader size + 3 x Sensor size. -/
theorem c3_wire_sizes :
    OcsdHeader.memorySize = 64 ∧ OcsdDeviceHeader.memorySize = 64
      ∧ OcsdSensor.memorySize = 32
      ∧ OcsdDevice.memorySize
          = OcsdDeviceHeader.memorySize + 3 * OcsdSensor.memorySize := by
  decide

/-- C4: for every well-formed sensor with bus set, decoding its
encoding reproduces every field except bus, which is absent after
decode. -/
theorem c4_sensor_roundtrip (s : OcsdSensor) (b : Nat)
    (hb : s.bus = some b) (hwf : s.wf) :
    OcsdSensor.fromBytes s.toBytes = some { s with bus := none } := by
  obtain ⟨t, loc, cfg, st, maxc, caut, rdg, uc, bus⟩ := s
  simp only [OcsdSensor.wf] at hwf
  obtain ⟨hcfg, hst, huc, hmaxc, hcaut, hrdg⟩ := hwf
  replace hb : bus = some b := hb
  subst hb
  show some (OcsdSensor.mk (OcsdSensorType.ofU8 t.toU8)
      (OcsdSensorLocation.ofU32 (readback32 loc.toU32))
      (readback32 (cfg + st * 65536) % 65536)
      (readback32 (cfg + st * 65536) / 65536)
      (Celsius.from_raw maxc.raw_value) (Celsius.from_raw caut.raw_value)
      (Celsius.from_raw rdg.raw_value) (readback16 uc) none)
    = some (OcsdSensor.mk t loc cfg st maxc caut rdg uc none)
  simp only [Option.some.injEq, OcsdSensor.mk.injEq, and_true]
  refine ⟨?_, ?_, ?_, ?_, ?_, ?_, ?_, ?_⟩
  · cases t <;> rfl
  · rw [readback32_eq loc.toU32 (OcsdSensorLocation.toU32_lt loc)]
    cases loc <;> rfl
  · rw [readback32_eq (cfg + st * 65536) (by omega)]
    omega
  · rw [readback32_eq (cfg + st * 65536) (by omega)]
    omega
  · exact Celsius.from_raw_raw_value maxc hmaxc
  · exact Celsius.from_raw_raw_value caut hcaut
  · exact Celsius.from_raw_raw_value rdg hrdg
  · exact readback16_eq uc huc

/-- C4 witness: the concrete thermal sensor on bus 3 is well formed and
round-trips with bus erased. -/
theorem c4_sensor_roundtrip_witness :
    OcsdSensor.fromBytes thermalSensor.toBytes
      = some { thermalSensor with bus := none } :=
  c4_sensor_roundtrip thermalSensor 3 (by decide) (by decide)

/-- C5: the known 32-byte vector decodes to a record whose recomputed
checksum with bus 3 equals the stored checksum field, the little-endian
u32 0xFFF42391 in its last four bytes. -/
theorem c5_known_vector_checksum :
    (OcsdSensorData.fromBytes c5bytes).map (fun d => d.checksumCalc 3)
        = some (readU32 c5bytes 28)
      ∧ readU32 c5bytes 28 = 0xFFF42391 := by
  decide

/-- C6: a sensor record whose scalar field sum (as the code computes
it, the wrapping u32 sum of sensor_type, sensor_location,
max_continuous_threshold, caution_threshold, the configuration/status
word, reading and update_count) is exactly zero has checksum zero for
every bus value. -/
theorem c6_null_sensor_checksum_zero (s : OcsdSensorData)
    (h : s.scalarSum = 0) (bus : Nat) : s.checksumCalc bus = 0 := by
  unfold OcsdSensorData.checksumCalc
  simp [h]

/-- C6 witness: the all-zero sensor record has scalar sum zero and
checksum zero at bus 3. -/
theorem c6_null_sensor_checksum_zero_witness :
    OcsdSensorData.zero.scalarSum = 0
      ∧ OcsdSensorData.zero.checksumCalc 3 = 0 :=
  ⟨by decide, c6_null_sensor_checksum_zero OcsdSensorData.zero (by decide) 3⟩

/-- C7: for every system header the library constructs, the last four
bytes of the encoding hold, little-endian, the additive inverse modulo
2^32 of the sum of the other scalar fields (each zero-extended to 32
bits).  The field arguments range over the values of their Rust
types. -/
theorem c7_header_checksum_inverse (v : OcsdVersion)
    (bs moc oocs bsa ui biu : Nat) (hbs : bs < 65536) (hmoc : moc < 256)
    (hoocs : oocs < 256) (hbsa : bsa < 4294967296) (hui : ui < 256)
    (hbiu : biu < 256) :
    List.drop 60 (OcsdHeader.toBytes ⟨v, bs, moc, oocs, bsa, ui, biu⟩)
      = le32 ((4294967296
          - (v.toU8 + bs + moc + oocs + bsa + ui + biu) % 4294967296)
          % 4294967296) := by
  have h1 : List.drop 60 (OcsdHeader.toBytes ⟨v, bs, moc, oocs, bsa, ui, biu⟩)
      = le32 (OcsdHeaderData.checksumCalc ⟨v.toU8, bs, moc, oocs, bsa, ui,
          biu, 0⟩) := rfl
  rw [h1]
  have hv : v.toU8 < 256 := by cases v <;> decide
  have h2 : OcsdHeaderData.checksumCalc ⟨v.toU8, bs, moc, oocs, bsa, ui,
      biu, 0⟩
      = (4294967296 - (v.toU8 + bs + moc + oocs + bsa + ui + biu)
          % 4294967296) % 4294967296 := by
    show wsub32 (wsub32 (wsub32 (wsub32 (wsub32 (wsub32 (wsub32 0
        v.toU8) bs) moc) oocs) bsa) ui) biu
      = (4294967296 - (v.toU8 + bs + moc + oocs + bsa + ui + biu)
          % 4294967296) % 4294967296
    rw [wsub32_zero v.toU8 (by omega),
      wsub32_chain_step (4294967296 - v.toU8) bs (by omega),
      wsub32_chain_step (4294967296 - v.toU8 + 4294967296 - bs) moc
        (by omega),
      wsub32_chain_step
        (4294967296 - v.toU8 + 4294967296 - bs + 4294967296 - moc) oocs
        (by omega),
      wsub32_chain_step (4294967296 - v.toU8 + 4294967296 - bs
        + 4294967296 - moc + 4294967296 - oocs) bsa (by omega),
      wsub32_chain_step (4294967296 - v.toU8 + 4294967296 - bs
        + 4294967296 - moc + 4294967296 - oocs + 4294967296 - bsa) ui
        (by omega),
      wsub32_chain_step (4294967296 - v.toU8 + 4294967296 - bs
        + 4294967296 - moc + 4294967296 - oocs + 4294967296 - bsa
        + 4294967296 - ui) biu (by omega)]
    omega
  rw [h2]

/-- C7 witness: the inverse-checksum property instantiated at a
concrete header. -/
theorem c7_header_checksum_inverse_witness :
    List.drop 60 (OcsdHeader.toBytes ⟨.Version2, 768, 2, 160, 4026531840,
        1, 1⟩)
      = le32 ((4294967296
          - (OcsdVersion.toU8 .Version2 + 768 + 2 + 160 + 4026531840 + 1
              + 1) % 4294967296) % 4294967296) :=
  c7_header_checksum_inverse .Version2 768 2 160 4026531840 1 1
    (by decide) (by decide) (by decide) (by decide) (by decide) (by decide)

/-- C8: over the i16 domain of Celsius::new, construction succeeds
exactly when degrees + OFFSET lies in [-128, 127], and for every
successfully constructed value, re-reading the raw byte gives back the
degree value. -/
theorem c8_celsius_range_roundtrip (d : Int) (_hlo : -32768 ≤ d)
    (_hhi : d ≤ 32767) :
    ((Celsius.new d).isSome
        ↔ (-128 ≤ d + Celsius.OFFSET ∧ d + Celsius.OFFSET ≤ 127))
      ∧ ∀ c, Celsius.new d = some c
        → (Celsius.from_raw c.raw_value).degrees = d := by
  constructor
  · show (if -128 ≤ d + Celsius.OFFSET ∧ d + Celsius.OFFSET ≤ 127 then
        some (Celsius.mk (d + Celsius.OFFSET)) else none).isSome = true
      ↔ (-128 ≤ d + Celsius.OFFSET ∧ d + Celsius.OFFSET ≤ 127)
    split_ifs with h
    · simpa using h
    · simpa using h
  · intro c hc
    replace hc : (if -128 ≤ d + Celsius.OFFSET ∧ d + Celsius.OFFSET ≤ 127
        then some (Celsius.mk (d + Celsius.OFFSET)) else none) = some c := hc
    split_ifs at hc with h
    injection hc with hc2
    subst hc2
    rw [Celsius.from_raw_raw_value _ (by exact h)]
    simp only [Celsius.degrees, Celsius.OFFSET]
    omega

/-- C8 witness: construction at 30 degrees succeeds and round-trips. -/
theorem c8_celsius_range_roundtrip_witness :
    (Celsius.new 30).isSome
      ∧ (Celsius.from_raw (Celsius.raw_value ⟨30⟩)).degrees = 30 := by
  have h := c8_celsius_range_roundtrip 30 (by decide) (by decide)
  exact ⟨h.1.mpr (by decide), h.2 ⟨30⟩ (by decide)⟩

/-- C9: requesting a device slot index at or above max_option_cards
fails with a MappingError no matter what the external mapper would
answer (the mapper oracle is universally quantified and never
consulted), while for an index below max_option_cards the mapper is
asked for one_option_card_size bytes at
buffer_start_address + one_option_card_size * index, and the request
succeeds with the mapped view whenever the external open succeeds. -/
theorem c9_open_device_mapping_bounds {V : Type}
    (opn : Nat → Nat → Option V) (hdr : OcsdHeader) (i : Nat) :
    (hdr.max_option_cards ≤ i →
      hdr.openDeviceMapping opn i
        = Except.error (MappingError.indexTooLarge i hdr.max_option_cards))
      ∧ (i < hdr.max_option_cards → ∀ v,
        opn (hdr.buffer_start_address + hdr.one_option_card_size * i)
            hdr.one_option_card_size = some v →
          hdr.openDeviceMapping opn i = Except.ok v) := by
  constructor
  · intro hle
    unfold OcsdHeader.openDeviceMapping
    rw [if_pos hle]
  · intro hlt v hv
    unfold OcsdHeader.openDeviceMapping
    rw [if_neg (by omega)]
    simp [hv]

/-- C9 witness: with a concrete two-slot header and a mapper that
records its arguments, index 2 is rejected and index 1 is opened at the
computed address with the slot size. -/
theorem c9_open_device_mapping_bounds_witness :
    c9hdr.openDeviceMapping mapOracle 2
        = Except.error (MappingError.indexTooLarge 2 2)
      ∧ c9hdr.openDeviceMapping mapOracle 1
        = Except.ok (4026531840 + 160 * 1, 160) := by
  refine ⟨(c9_open_device_mapping_bounds mapOracle c9hdr 2).1 (by decide),
    (c9_open_device_mapping_bounds mapOracle c9hdr 1).2 (by decide) _ rfl⟩

/-- C10: reading a device through the context decodes a buffer sized to
one_option_card_size, and the decode succeeds exactly when that size is
at least the device wire size; for any smaller size the Rust code
panics on an out-of-bounds slice (modelled by none) instead of
returning an error. -/
theorem c10_read_requires_full_device (device_size : Nat)
    (mem : Nat → Nat) :
    (OcsdDeviceContext.read device_size mem).isSome
      ↔ OcsdDevice.memorySize ≤ device_size := by
  unfold OcsdDeviceContext.read
  rw [device_fromBytes_isSome_iff]
  simp

end Ocsd
